import Mathlib

/-!
Shallow embedding of the session authentication & confirmation-signing
subsystem of the SteamHelper repository (crates steam-mobile,
steamid-parser, steam-totp), together with theorems settling the frozen
claims about it.  Definitions follow the Rust sources file by file;
collaborators that live outside the repository (the HTTP transport,
serde_json, the HMAC primitive) appear as explicit inputs or function
parameters.
-/

/-- Boolean infix test on character lists: `listInfix needle hay` is true
iff `needle` occurs contiguously inside `hay`.  Used to embed the Rust
`str::contains` on string slices. -/
def listInfix (needle : List Char) : List Char → Bool
  | [] => needle.isEmpty
  | c :: t => needle.isPrefixOf (c :: t) || listInfix needle t

/-- Embeds Rust `String::contains(sub)`. -/
def strContains (s sub : String) : Bool :=
  listInfix sub.data s.data

/-- Embeds Rust `str::starts_with(pre)`: a character-level prefix test,
which on valid UTF-8 agrees with the byte-level test Rust performs. -/
def strStartsWith (s pre : String) : Bool :=
  pre.data.isPrefixOf s.data

/-- Rust `LoginError` from `steam-mobile/src/errors.rs`.  The file itself is not
under `src/`; the variants are those constructed by
`resolve_login_response` in `types.rs` and listed by the spec taxonomy
(section 7). -/
inductive LoginError
  | CaptchaRequired (captcha_guid : String)
  | IncorrectCredentials
  | GeneralFailure (detail : String)
deriving DecidableEq

/-- Rust `InternalError` from `steam-mobile/src/errors.rs` (not under `src/`);
variants follow the spec taxonomy (section 7).  `SessionExpired` is the
distinguished expiry error the spec mandates for the Session Guard. -/
inductive InternalError
  | NetworkFailure (detail : String)
  | DeserializationError (detail : String)
  | GeneralFailure (detail : String)
  | SessionExpired
deriving DecidableEq

/-- The nested OAuth token block of a successful mobile login response
(`Oauth` in `steam-mobile/src/types.rs`). -/
structure Oauth where
  steamid : String
  account_name : String
  oauth_token : String
  wgtoken : String
  wgtoken_secure : String
deriving DecidableEq

/-- Rust `LoginResponseMobile` from `steam-mobile/src/types.rs`: a login
response body carrying an embedded OAuth token block. -/
structure LoginResponseMobile where
  success : Bool
  requires_twofactor : Bool
  redirect_uri : String
  login_complete : Bool
  oauth : Oauth
deriving DecidableEq

/-- Rust `LoginErrorCaptcha` from `steam-mobile/src/types.rs`: a login response
body signalling that a captcha is required. -/
structure LoginErrorCaptcha where
  success : Bool
  message : String
  captcha_needed : Bool
  captcha_gid : String
deriving DecidableEq

/-- A raw login response body as seen by `resolve_login_response`,
abstracted by the outcomes of the two `serde_json::from_str` attempts the
function performs on it, together with the raw text.  `serde_json` is an
external collaborator, so its verdicts on the body are inputs of the
embedding. -/
structure RawLoginBody where
  parseMobile : Option LoginResponseMobile
  parseCaptcha : Option LoginErrorCaptcha
  text : String

/-- The canonical incorrect-credentials phrase tested by
`resolve_login_response` (`steam-mobile/src/types.rs`). -/
def INCORRECT_CREDENTIALS_PHRASE : String :=
  "account name or password that you have entered is incorrect"

/-- Rust `resolve_login_response` from `steam-mobile/src/types.rs`: classify a
raw login response body. -/
def resolve_login_response (body : RawLoginBody) : Except LoginError LoginResponseMobile :=
  match body.parseMobile with
  | some login_resp => Except.ok login_resp
  | none =>
    match body.parseCaptcha with
    | some res => Except.error (LoginError.CaptchaRequired res.captcha_gid)
    | none =>
      if strContains body.text INCORRECT_CREDENTIALS_PHRASE then
        Except.error LoginError.IncorrectCredentials
      else
        Except.error (LoginError.GeneralFailure body.text)

/-- A parsed redirect URL as consumed by `MobileClient::url_expired_check`:
the host component (absent for some URL shapes, mirrored by `Option`) and
the path component. -/
structure Url where
  host : Option String
  path : String
deriving DecidableEq

/-- Rust `MobileClient::url_expired_check` from `steam-mobile/src/client.rs`:
the session is expired when the redirect host is the lost-auth sentinel
or the path starts with the login prefix.  `Option.get!` mirrors the
`unwrap()` on `host_str()`. -/
def url_expired_check (redirect_url : Url) : Bool :=
  redirect_url.host.get! == "lostauth" || strStartsWith redirect_url.path "/login"

/-- Rust `MobileClient::session_is_expired` from `steam-mobile/src/client.rs`,
with the probe request to the account endpooint abstracted as its result:
a transport error, or the optional redirect location header. -/
def session_is_expired (probe : Except InternalError (Option Url)) : Except InternalError Bool :=
  match probe with
  | Except.error e => Except.error e
  | Except.ok (some location) => Except.ok (url_expired_check location)
  | Except.ok none => Except.ok false

/-- Result of running a guarded request, distinguishing a Rust panic from
normal returns. -/
inductive GuardedOutcome (α : Type)
  | ok (a : α)
  | err (e : InternalError)
  | panicked (msg : String)
deriving DecidableEq

/-- Rust `MobileClient::request_with_session_guard` from
`steam-mobile/src/client.rs`: preemptively checks `session_is_expired`;
when the session turns out expired the body executes `unimplemented!()`,
i.e. panics; otherwise the underlying request (abstracted by its result)
is forwarded. -/
def request_with_session_guard {α : Type} (probe : Except InternalError (Option Url))
    (request : Except InternalError α) : GuardedOutcome α :=
  match session_is_expired probe with
  | Except.error e => GuardedOutcome.err e
  | Except.ok true => GuardedOutcome.panicked "not implemented"
  | Except.ok false =>
    match request with
    | Except.ok a => GuardedOutcome.ok a
    | Except.error e => GuardedOutcome.err e

/-- Rust `EConfirmationType` from
`steam-mobile/src/web_handler/confirmation.rs`. -/
inductive EConfirmationType
  | Unknown
  | Generic
  | Trade
  | Market
  | FeatureOptOut
  | PhoneNumberChange
  | AccountRecovery
  | APIKey
deriving DecidableEq

/-- Rust `Confirmation` from `steam-mobile/src/web_handler/confirmation.rs`: a
pending Steam confirmation. -/
structure Confirmation where
  id : String
  key : String
  kind : EConfirmationType
  creation_time : Int
  creator_id : String
  type_name : String
deriving DecidableEq

/-- Rust `ConfirmationAction` from
`steam-mobile/src/web_handler/confirmation.rs`. -/
inductive ConfirmationAction
  | Retrieve
  | Accept
  | Deny
deriving DecidableEq

/-- Rust `ConfirmationAction::as_operation` from
`steam-mobile/src/web_handler/confirmation.rs`: the value of the `op`
field of a batched confirmation request; only `Accept` and `Deny` have
one. -/
def ConfirmationAction.as_operation : ConfirmationAction → Option String
  | ConfirmationAction.Accept => some "allow"
  | ConfirmationAction.Deny => some "cancel"
  | _ => none

/-- Rust `ConfirmationAction::as_tag` from
`steam-mobile/src/web_handler/confirmation.rs`: the tag handed to the
Confirmation Signer.  The source returns the constant `"conf"` for every
action. -/
def ConfirmationAction.as_tag : ConfirmationAction → String :=
  fun _ => "conf"

/-- Rust `ConfirmationMultiAcceptRequest` from `steam-mobile/src/types.rs`:
the one batched request submitted when acting on confirmations.
`confirmation_hash` is the signature (the `k` field of the wire
contract) and `tag` the tag it was computed over. -/
structure ConfirmationMultiAcceptRequest where
  steamid : String
  confirmation_hash : String
  device_kind : String
  operation : String
  device_id : String
  time : String
  tag : String
  confirmation_id : List (String × String)
  confirmation_key : List (String × String)
deriving DecidableEq

/-- Flattens a list of values into indexed parameter pairs
`base[0], base[1], ...`, the wire encoding of multi-valued id/key
lists. -/
def indexedPairs (base : String) (vals : List String) : List (String × String) :=
  vals.enum.map (fun p => (base ++ "[" ++ toString p.1 ++ "]", p.2))

/-- Modelled from the spec: `send_confirmations` from
`steam-mobile/src/web_handler/mod.rs`, which is not under `src/`.  Spec
section 4.6: sign with the tag of the action (the in-src
`ConfirmationAction::as_tag`), flatten the ids of the selected confirmations
and keys into indexed parameter pairs, and submit one batched request
(the in-src `ConfirmationMultiAcceptRequest`); acting on an empty
selection is a no-op that returns success without a network call.  The
Confirmation Signer already keyed with the identity secret is the
function parameter `hash`; the returned list holds the requests actually
submitted. -/
def send_confirmations (steamid device_id : String) (time : Nat)
    (hash : String → Nat → String) (operation : ConfirmationAction)
    (confirmations : List Confirmation) :
    Except InternalError (List ConfirmationMultiAcceptRequest) :=
  if confirmations.isEmpty then
    Except.ok []
  else
    match operation.as_operation with
    | none => Except.error (InternalError.GeneralFailure "Unsupported operation")
    | some op =>
      Except.ok [{ steamid := steamid
                   confirmation_hash := hash operation.as_tag time
                   device_kind := "android"
                   operation := op
                   device_id := device_id
                   time := toString time
                   tag := operation.as_tag
                   confirmation_id := indexedPairs "id" (confirmations.map Confirmation.id)
                   confirmation_key := indexedPairs "key" (confirmations.map Confirmation.key) }]

/-- Rust `SteamAuthenticator::handle_confirmations` from
`steam-mobile/src/client.rs`: fetch confirmations (the fetched list is an
input, the fetch itself being a transport call), and when the fetched
list is non-empty process the caller-filtered selection through
`send_confirmations`; otherwise return success directly. -/
def handle_confirmations (steamid device_id : String) (time : Nat)
    (hash : String → Nat → String) (operation : ConfirmationAction)
    (f : List Confirmation → List Confirmation) (fetched : List Confirmation) :
    Except InternalError (List ConfirmationMultiAcceptRequest) :=
  if !fetched.isEmpty then
    send_confirmations steamid device_id time hash operation (f fetched)
  else
    Except.ok []

/-- Rust `STEAM_COMMUNITY_HOST` from the steam-mobile crate root (constant of
`lib.rs`, not under `src/`; value fixed by the Steam community domain the
client targets). -/
def STEAM_COMMUNITY_HOST : String := "steamcommunity.com"

/-- Rust `STEAM_HELP_HOST` from the steam-mobile crate root. -/
def STEAM_HELP_HOST : String := "help.steampowered.com"

/-- Rust `STEAM_STORE_HOST` from the steam-mobile crate root. -/
def STEAM_STORE_HOST : String := "store.steampowered.com"

/-- A cookie record of the in-memory jar: domain-scoped name/value pair
with a path, as built by `Cookie::build(..).domain(..).path(..)` in
`login_website`. -/
structure CookieRecord where
  name : String
  value : String
  domain : String
  path : String
deriving DecidableEq

/-- The cookie records added for one host by the trailing loop of
`login_website` (`steam-mobile/src/web_handler/login.rs`, lines
158-185): the secure token, the plain token, the session id and the
timezone offset, each scoped to `host` and path `/`.  The token values
mirror the Rust formatting `steamid ++ "%7C%7C" ++ token`. -/
def session_cookies_for_host (steamid token token_secure session_id timezone_offset host : String) :
    List CookieRecord :=
  [ { name := "steamLoginSecure", value := steamid ++ "%7C%7C" ++ token_secure,
      domain := host, path := "/" },
    { name := "steamLogin", value := steamid ++ "%7C%7C" ++ token,
      domain := host, path := "/" },
    { name := "sessionid", value := session_id, domain := host, path := "/" },
    { name := "timezoneOffset", value := timezone_offset, domain := host, path := "/" } ]

/-- The full set of cookie records installed by `login_website` on a
successful login: the per-host records for each of the community, help
and store hosts. -/
def install_login_cookies (steamid token token_secure session_id timezone_offset : String) :
    List CookieRecord :=
  ([STEAM_COMMUNITY_HOST, STEAM_HELP_HOST, STEAM_STORE_HOST].map
    (session_cookies_for_host steamid token token_secure session_id timezone_offset)).flatten

/-- The error surfaced by the Login Handshake
(`login_and_store_cookies`, whose module is not under `src/`): the
classified `LoginError` outcomes plus the network-level and
malformed-response failures of the spec taxonomy (section 7). -/
inductive HandshakeError
  | login (e : LoginError)
  | network (detail : String)
  | deserialization (detail : String)
deriving DecidableEq

/-- Rust `backoff::Error`: how the failure of one attempt instructs the retry
policy — abort (`permanent`) or back off and try again (`transient`). -/
inductive BackoffDecision (ε : Type)
  | permanent (e : ε)
  | transient (e : ε)
deriving DecidableEq

/-- The driving loop of `backoff::future::retry`: run the operation on
successive attempt indices; stop on success or on a `permanent` error;
on a `transient` error retry while attempts remain (`fuel` bounds the
remaining retries, embedding the bounded attempt count of
`login_retry_strategy`).  Returns the final result together with the
number of attempts performed. -/
def backoffRetryGo {α ε : Type} (op : Nat → Except (BackoffDecision ε) α) :
    Nat → Nat → Except ε α × Nat
  | fuel, attempt =>
    match op attempt with
    | Except.ok a => (Except.ok a, attempt + 1)
    | Except.error (BackoffDecision.permanent e) => (Except.error e, attempt + 1)
    | Except.error (BackoffDecision.transient e) =>
      match fuel with
      | 0 => (Except.error e, attempt + 1)
      | fuel + 1 => backoffRetryGo op fuel (attempt + 1)

/-- Rust `backoff::future::retry` with a strategy allowing at most
`maxRetries` retries after the first attempt. -/
def backoffRetry {α ε : Type} (maxRetries : Nat)
    (op : Nat → Except (BackoffDecision ε) α) : Except ε α × Nat :=
  backoffRetryGo op maxRetries 0

/-- The error mapper inside `SteamAuthenticator::login`
(`steam-mobile/src/client.rs`, lines 111-121): the catch-all
`match error \x7b e => backoff::Error::permanent(e) \x7d` wraps every
handshake error as a permanent backoff error. -/
def login_error_classifier (e : HandshakeError) : BackoffDecision HandshakeError :=
  BackoffDecision.permanent e

/-- Rust `CachedInfo` / the `SessionCache` of the spec: output of a successful
Login Handshake. -/
structure SessionCache where
  steamid : Nat
  oauth_token : String
  api_key : Option String
deriving DecidableEq

/-- Rust `CachedInfo::set_api_key`. -/
def SessionCache.set_api_key (cache : SessionCache) (key : Option String) : SessionCache :=
  { cache with api_key := key }

/-- The retry-wrapped Login Handshake of `SteamAuthenticator::login`: the
handshake itself (a transport interaction) is scripted by its per-attempt
result, and every error goes through `login_error_classifier`.  Returns
the result and the number of attempts performed. -/
def login_retry (maxRetries : Nat) (handshake : Nat → Except HandshakeError SessionCache) :
    Except HandshakeError SessionCache × Nat :=
  backoffRetry maxRetries (fun n => (handshake n).mapError login_error_classifier)

/-- The result component of `login_retry`. -/
def loginWithRetry (maxRetries : Nat) (handshake : Nat → Except HandshakeError SessionCache) :
    Except HandshakeError SessionCache :=
  (login_retry maxRetries handshake).1

/-- The two type-level authentication states of `SteamAuthenticator`
(`Authenticated` / `Unauthenticated` in `steam-mobile/src/client.rs`). -/
inductive AuthLevel
  | Unauthenticated
  | Authenticated
deriving DecidableEq

/-- Rust `SteamUser`: the per-account Identity (secrets elided to the fields
the lifecycle claims need). -/
structure SteamUser where
  username : String
  password : String
deriving DecidableEq

/-- Rust `SteamAuthenticator<AuthState, _>` with its `InnerAuthenticator`
flattened: the user identity and the optional session cache, indexed by
the type-level authentication state. -/
structure SteamAuthenticator (level : AuthLevel) where
  user : SteamUser
  cache : Option SessionCache
deriving DecidableEq

/-- Rust `SteamAuthenticator::new` (`steam-mobile/src/client.rs`, line 82):
builds an unauthenticated authenticator with `cache: None` and no
network activity. -/
def SteamAuthenticator.new (user : SteamUser) :
    SteamAuthenticator AuthLevel.Unauthenticated :=
  { user := user, cache := none }

/-- Rust `SteamAuthenticator::login` (`steam-mobile/src/client.rs`, lines
105-145): consumes the unauthenticated value, drives the Login Handshake
under the retry policy, best-effort caches the API key (`none` when the
fetch failed, which is silently ignored), and on success returns an
authenticated value whose cache is populated. -/
def SteamAuthenticator.login (auth : SteamAuthenticator AuthLevel.Unauthenticated)
    (maxRetries : Nat) (handshake : Nat → Except HandshakeError SessionCache)
    (api_key : Option String) :
    Except HandshakeError (SteamAuthenticator AuthLevel.Authenticated) :=
  match loginWithRetry maxRetries handshake with
  | Except.error e => Except.error e
  | Except.ok cache =>
    let cache :=
      match api_key with
      | some key => cache.set_api_key (some key)
      | none => cache
    Except.ok { user := auth.user, cache := some cache }

/-- The authenticator values actually constructible through the public
lifecycle: `new` produces the unauthenticated ones and a successful
`login` of a reachable unauthenticated value produces the authenticated
ones. -/
inductive ReachableAuth : (level : AuthLevel) → SteamAuthenticator level → Prop
  | new (user : SteamUser) :
      ReachableAuth AuthLevel.Unauthenticated (SteamAuthenticator.new user)
  | login (a : SteamAuthenticator AuthLevel.Unauthenticated) (maxRetries : Nat)
      (handshake : Nat → Except HandshakeError SessionCache) (api_key : Option String)
      (b : SteamAuthenticator AuthLevel.Authenticated)
      (hr : ReachableAuth AuthLevel.Unauthenticated a)
      (h : a.login maxRetries handshake api_key = Except.ok b) :
      ReachableAuth AuthLevel.Authenticated b

/-- Rust `SteamID` from `steamid-parser/src/lib.rs`, with each bit-vector
field carried as the natural number it loads to (`universe` 8 bits,
`account_type` 4 bits, `account_instance` 20 bits, `account_number` 31
bits, `account_id` the parity bit). -/
structure SteamID where
  account_id : Bool
  account_number : Nat
  account_instance : Nat
  account_type : Nat
  «universe» : Nat
deriving DecidableEq

/-- Rust `SteamID::from_steam64` (`steamid-parser/src/lib.rs`, lines 106-123):
slice the 64 bits of the input (most-significant first) into
universe `[0..8]`, type `[8..12]`, instance `[12..32]`, number
`[32..63]` and the parity bit `[63]`. -/
def SteamID.from_steam64 (steam64 : Nat) : SteamID :=
  { account_id := steam64 % 2 = 1
    account_number := steam64 / 2 % 2 ^ 31
    account_instance := steam64 / 2 ^ 32 % 2 ^ 20
    account_type := steam64 / 2 ^ 52 % 2 ^ 4
    «universe» := steam64 / 2 ^ 56 % 2 ^ 8 }

/-- Rust `SteamID::to_steam64` (`steamid-parser/src/lib.rs`, lines 73-84):
concatenate universe, type, instance, number and the parity bit into 64
bits and load the slice `[1..]`, i.e. drop the most significant bit —
arithmetically, reduce the 64-bit concatenation modulo `2 ^ 63`. -/
def SteamID.to_steam64 (s : SteamID) : Nat :=
  ((((s.«universe» * 2 ^ 4 + s.account_type) * 2 ^ 20 + s.account_instance) * 2 ^ 31
      + s.account_number) * 2 + (if s.account_id then 1 else 0)) % 2 ^ 63

/-- Modelled from the spec: the restricted character alphabet of the
One-Time-Code Generator (`steam-totp/src/lib.rs`, not under `src/`). -/
def STEAM_CHARS : List Char :=
  ['2', '3', '4', '5', '6', '7', '8', '9', 'B', 'C', 'D', 'F', 'G', 'H',
   'J', 'K', 'M', 'N', 'P', 'Q', 'R', 'T', 'V', 'W', 'X', 'Y']

/-- The 8-byte big-endian encoding of the time-step counter. -/
def be_bytes8 (n : Nat) : List Nat :=
  [n / 2 ^ 56 % 256, n / 2 ^ 48 % 256, n / 2 ^ 40 % 256, n / 2 ^ 32 % 256,
   n / 2 ^ 24 % 256, n / 2 ^ 16 % 256, n / 2 ^ 8 % 256, n % 256]

/-- Dynamic truncation of a 20-byte keyed digest: take the 31-bit
big-endian word at the offset given by the low nibble of the last
byte. -/
def dynamic_truncate (digest : List Nat) : Nat :=
  let offset := digest.getD 19 0 % 16
  (digest.getD offset 0 % 128) * 2 ^ 24 + digest.getD (offset + 1) 0 % 256 * 2 ^ 16
    + digest.getD (offset + 2) 0 % 256 * 2 ^ 8 + digest.getD (offset + 3) 0 % 256

/-- Successive base-26 digits of the truncated hash rendered over the
restricted alphabet. -/
def render_code_chars : Nat → Nat → List Char
  | 0, _ => []
  | k + 1, code => STEAM_CHARS.getD (code % 26) '2' :: render_code_chars k (code / 26)

/-- Modelled from the spec: `generate_auth_code` of the steam-totp crate
(`steam-totp/src/lib.rs`, not under `src/`).  Spec section 4.3: truncate
a keyed hash of the 8-byte big-endian time-step counter
`floor(time / 30)` and render 5 characters over the restricted alphabet.
The keyed hash (HMAC-SHA1 over the decoded shared secret, an external
cryptographic primitive) is the parameter `hmac`, mapping key and
message byte strings to the digest bytes. -/
def generate_auth_code (hmac : List Nat → List Nat → List Nat)
    (shared_secret : List Nat) (time : Nat) : String :=
  String.mk (render_code_chars 5 (dynamic_truncate (hmac shared_secret (be_bytes8 (time / 30)))))


/-- A scripted Login Handshake that fails with a network-level (transient
per the spec) error on the first attempt and succeeds on every later
attempt. -/
def handshakeTransientThenOk : Nat → Except HandshakeError SessionCache
  | 0 => Except.error (HandshakeError.network "connection reset by peer")
  | _ + 1 => Except.ok { steamid := 76561198092541763, oauth_token := "token", api_key := none }

/-- A sample Trade confirmation used as concrete input. -/
def sampleTradeConfirmation : Confirmation :=
  { id := "6984185067", key := "10827670217361637954", kind := EConfirmationType.Trade,
    creation_time := 0, creator_id := "4241840365", type_name := "Trade Offer" }

/-- A sample successful mobile login response. -/
def sampleMobileResponse : LoginResponseMobile :=
  { success := true, requires_twofactor := false, redirect_uri := "", login_complete := true,
    oauth := { steamid := "76561198092541763", account_name := "account",
               oauth_token := "oauthtok", wgtoken := "wgtok", wgtoken_secure := "wgtoksec" } }

/-- C1 (code bug): the retry policy wrapping the Login Handshake never
retries.  The catch-all mapper of `SteamAuthenticator::login` wraps every
handshake error — the network-level one included — as
`backoff::Error::permanent`, so a handshake failing transiently on
attempt 1 and succeeding on attempt 2 still makes `login` abort with the
transient error after exactly one attempt, against the claim (and the
doc comment of the function itself) that transient failures are retried and this
script succeeds after exactly one retry.  The permanent half of the
claim does hold: `IncorrectCredentials` on attempt 1 aborts after one
attempt with the error surfaced unmodified. -/
theorem c1_transient_failure_is_not_retried :
    login_retry 5 handshakeTransientThenOk
      = (Except.error (HandshakeError.network "connection reset by peer"), 1) ∧
    handshakeTransientThenOk 1
      = Except.ok { steamid := 76561198092541763, oauth_token := "token", api_key := none } ∧
    login_error_classifier (HandshakeError.network "connection reset by peer")
      = BackoffDecision.permanent (HandshakeError.network "connection reset by peer") ∧
    login_retry 5 (fun _ => Except.error (HandshakeError.login LoginError.IncorrectCredentials))
      = (Except.error (HandshakeError.login LoginError.IncorrectCredentials), 1) :=
  ⟨rfl, rfl, rfl, rfl⟩

/-- C2 (code bug): when the Session Guard detects an expired session (a
probe redirect to `/login/home`), `request_with_session_guard` executes
`unimplemented!()` — a panic — instead of returning the distinguished
`SessionExpired` error the spec mandates. -/
theorem c2_session_guard_panics_instead_of_session_expired :
    request_with_session_guard (α := Unit)
        (Except.ok (some { host := some "store.steampowered.com", path := "/login/home" }))
        (Except.ok ())
      = GuardedOutcome.panicked "not implemented" ∧
    request_with_session_guard (α := Unit)
        (Except.ok (some { host := some "store.steampowered.com", path := "/login/home" }))
        (Except.ok ())
      ≠ GuardedOutcome.err InternalError.SessionExpired := by
  constructor
  · rfl
  · decide

/-- C3: `resolve_login_response` classifies every body as the claim
states: an embedded OAuth token block parses as success; otherwise a
body parseable as the captcha error yields `CaptchaRequired` with its
guid; otherwise a body containing the canonical incorrect-credentials
phrase yields `IncorrectCredentials`; any other body yields
`GeneralFailure` carrying the body. -/
theorem c3_login_response_classification (body : RawLoginBody) :
    (∀ resp, body.parseMobile = some resp →
      resolve_login_response body = Except.ok resp) ∧
    (∀ cap, body.parseMobile = none → body.parseCaptcha = some cap →
      resolve_login_response body = Except.error (LoginError.CaptchaRequired cap.captcha_gid)) ∧
    (body.parseMobile = none → body.parseCaptcha = none →
      strContains body.text INCORRECT_CREDENTIALS_PHRASE = true →
      resolve_login_response body = Except.error LoginError.IncorrectCredentials) ∧
    (body.parseMobile = none → body.parseCaptcha = none →
      strContains body.text INCORRECT_CREDENTIALS_PHRASE = false →
      resolve_login_response body = Except.error (LoginError.GeneralFailure body.text)) := by
  refine ⟨?_, ?_, ?_, ?_⟩
  · intro resp h
    simp [resolve_login_response, h]
  · intro cap h1 h2
    simp [resolve_login_response, h1, h2]
  · intro h1 h2 h3
    simp [resolve_login_response, h1, h2, h3]
  · intro h1 h2 h3
    simp [resolve_login_response, h1, h2, h3]

/-- Witness for C3 at a concrete successful body. -/
theorem c3_login_response_classification_witness :
    resolve_login_response
        { parseMobile := some sampleMobileResponse, parseCaptcha := none, text := "" }
      = Except.ok sampleMobileResponse :=
  (c3_login_response_classification _).1 sampleMobileResponse rfl

/-- C4: for every redirect URL with a host, the session is reported
expired iff the host is the lost-auth sentinel or the path begins with
the login prefix; in particular `/login/home` is expired, a lost-auth
host is expired, and `/my/profile` is not. -/
theorem c4_url_expired_policy (u : Url) (h : String) (hh : u.host = some h) :
    (url_expired_check u = true ↔ h = "lostauth" ∨ strStartsWith u.path "/login" = true) ∧
    url_expired_check { host := some "store.steampowered.com", path := "/login/home" } = true ∧
    url_expired_check { host := some "lostauth", path := "/" } = true ∧
    url_expired_check { host := some "store.steampowered.com", path := "/my/profile" } = false := by
  refine ⟨?_, by decide, by decide, by decide⟩
  simp [url_expired_check, hh, Option.get!, Bool.or_eq_true, beq_iff_eq]

/-- Witness for C4 at the `/login/home` redirect. -/
theorem c4_url_expired_policy_witness :
    (url_expired_check { host := some "store.steampowered.com", path := "/login/home" } = true ↔
      "store.steampowered.com" = "lostauth" ∨ strStartsWith "/login/home" "/login" = true) ∧
    url_expired_check { host := some "store.steampowered.com", path := "/login/home" } = true ∧
    url_expired_check { host := some "lostauth", path := "/" } = true ∧
    url_expired_check { host := some "store.steampowered.com", path := "/my/profile" } = false :=
  c4_url_expired_policy { host := some "store.steampowered.com", path := "/login/home" }
    "store.steampowered.com" rfl

/-- C5 (counterexample): acting with `Accept` on a concrete confirmation
produces the one batched request with its signature computed over the
tag `"conf"` (the signer parameter here returns its tag argument, making
the signed-over tag visible as the hash) and `tag` field `"conf"` — not
`"allow"` as the claim states.  The action only selects the `op` field. -/
theorem c5_accept_is_signed_with_conf_not_allow :
    send_confirmations "76561198092541763" "android:device" 100 (fun tag _ => tag)
        ConfirmationAction.Accept [sampleTradeConfirmation]
      = Except.ok [{ steamid := "76561198092541763", confirmation_hash := "conf",
                     device_kind := "android", operation := "allow",
                     device_id := "android:device", time := "100", tag := "conf",
                     confirmation_id := [("id[0]", "6984185067")],
                     confirmation_key := [("key[0]", "10827670217361637954")] }] ∧
    ("conf" : String) ≠ "allow" := by
  constructor
  · rfl
  · decide

/-- C5 (amended): for every non-empty selection, processing with `Accept`
produces exactly one batched request whose operation field is `"allow"`
and processing with `Deny` one whose operation field is `"cancel"`, but
both requests carry the constant tag `"conf"` and their signature is the
one the Confirmation Signer computes over `"conf"`. -/
theorem c5_operation_field_matches_action_tag_constant
    (steamid device_id : String) (time : Nat) (hash : String → Nat → String)
    (items : List Confirmation) (hne : items ≠ []) :
    ((send_confirmations steamid device_id time hash ConfirmationAction.Accept items).map
        (List.map (fun r => (r.operation, r.tag, r.confirmation_hash)))
      = Except.ok [("allow", "conf", hash "conf" time)]) ∧
    ((send_confirmations steamid device_id time hash ConfirmationAction.Deny items).map
        (List.map (fun r => (r.operation, r.tag, r.confirmation_hash)))
      = Except.ok [("cancel", "conf", hash "conf" time)]) := by
  have hne2 : items.isEmpty = false := by
    cases items with
    | nil => exact absurd rfl hne
    | cons a t => rfl
  constructor <;>
    simp [send_confirmations, hne2, ConfirmationAction.as_operation,
      ConfirmationAction.as_tag, Except.map]

/-- Witness for the amended C5 at a concrete selection. -/
theorem c5_operation_field_matches_action_tag_constant_witness :
    ((send_confirmations "a" "d" 100 (fun tag _ => tag) ConfirmationAction.Accept
          [sampleTradeConfirmation]).map
        (List.map (fun r => (r.operation, r.tag, r.confirmation_hash)))
      = Except.ok [("allow", "conf", "conf")]) ∧
    ((send_confirmations "a" "d" 100 (fun tag _ => tag) ConfirmationAction.Deny
          [sampleTradeConfirmation]).map
        (List.map (fun r => (r.operation, r.tag, r.confirmation_hash)))
      = Except.ok [("cancel", "conf", "conf")]) :=
  c5_operation_field_matches_action_tag_constant "a" "d" 100 (fun tag _ => tag)
    [sampleTradeConfirmation] (List.cons_ne_nil _ _)

/-- C6: for every action and filter, when the filtered selection is
empty, `handle_confirmations` returns success having issued no batched
action request: an empty fetch short-circuits before filtering, and a
non-empty fetch whose filtered selection is empty reaches
`send_confirmations`, which is a no-op on an empty selection. -/
theorem c6_empty_filtered_selection_is_noop (steamid device_id : String) (time : Nat)
    (hash : String → Nat → String) (operation : ConfirmationAction)
    (f : List Confirmation → List Confirmation) (fetched : List Confirmation)
    (hf : f fetched = []) :
    handle_confirmations steamid device_id time hash operation f fetched = Except.ok [] := by
  unfold handle_confirmations
  by_cases hfe : fetched.isEmpty
  · simp [hfe]
  · simp [hfe, hf, send_confirmations]

/-- Witness for C6: three fetched confirmations, a filter selecting none. -/
theorem c6_empty_filtered_selection_is_noop_witness :
    handle_confirmations "a" "d" 100 (fun tag _ => tag) ConfirmationAction.Accept
        (fun _ => []) [sampleTradeConfirmation, sampleTradeConfirmation, sampleTradeConfirmation]
      = Except.ok [] :=
  c6_empty_filtered_selection_is_noop "a" "d" 100 (fun tag _ => tag)
    ConfirmationAction.Accept (fun _ => [])
    [sampleTradeConfirmation, sampleTradeConfirmation, sampleTradeConfirmation] rfl

/-- C7: on a successful login, for every one of the community, help and
store hosts, the secure session token, the plain session token and the
session id are each installed as a separate cookie record scoped to that
host. -/
theorem c7_session_cookies_installed_per_host
    (steamid token token_secure session_id timezone_offset : String) (h : String)
    (hh : h ∈ [STEAM_COMMUNITY_HOST, STEAM_HELP_HOST, STEAM_STORE_HOST]) :
    ({ name := "steamLoginSecure", value := steamid ++ "%7C%7C" ++ token_secure,
       domain := h, path := "/" } : CookieRecord)
        ∈ install_login_cookies steamid token token_secure session_id timezone_offset ∧
    ({ name := "steamLogin", value := steamid ++ "%7C%7C" ++ token,
       domain := h, path := "/" } : CookieRecord)
        ∈ install_login_cookies steamid token token_secure session_id timezone_offset ∧
    ({ name := "sessionid", value := session_id, domain := h, path := "/" } : CookieRecord)
        ∈ install_login_cookies steamid token token_secure session_id timezone_offset := by
  fin_cases hh <;>
    refine ⟨?_, ?_, ?_⟩ <;>
      simp [install_login_cookies, session_cookies_for_host,
        STEAM_COMMUNITY_HOST, STEAM_HELP_HOST, STEAM_STORE_HOST]

/-- Witness for C7 at the community host with concrete tokens. -/
theorem c7_session_cookies_installed_per_host_witness :
    ({ name := "steamLoginSecure", value := "sid" ++ "%7C%7C" ++ "sec",
       domain := STEAM_COMMUNITY_HOST, path := "/" } : CookieRecord)
        ∈ install_login_cookies "sid" "tok" "sec" "sess" "0,0" ∧
    ({ name := "steamLogin", value := "sid" ++ "%7C%7C" ++ "tok",
       domain := STEAM_COMMUNITY_HOST, path := "/" } : CookieRecord)
        ∈ install_login_cookies "sid" "tok" "sec" "sess" "0,0" ∧
    ({ name := "sessionid", value := "sess", domain := STEAM_COMMUNITY_HOST,
       path := "/" } : CookieRecord)
        ∈ install_login_cookies "sid" "tok" "sec" "sess" "0,0" :=
  c7_session_cookies_installed_per_host "sid" "tok" "sec" "sess" "0,0"
    STEAM_COMMUNITY_HOST (List.mem_cons_self _ _)

/-- Helper: the rendered code always has exactly `k` characters. -/
theorem render_code_chars_length (k : Nat) : ∀ code, (render_code_chars k code).length = k := by
  induction k with
  | zero => intro code; rfl
  | succ n ih => intro code; simp [render_code_chars, ih]

/-- C8: the one-time code is a pure function of the shared secret and the
30-second window of the synchronized time: for any keyed hash, any
shared secret and any two times in the same window the generated codes
are identical, and the code has exactly 5 characters. -/
theorem c8_auth_code_stable_in_window (hmac : List Nat → List Nat → List Nat)
    (shared_secret : List Nat) (t1 t2 : Nat) (hw : t1 / 30 = t2 / 30) :
    generate_auth_code hmac shared_secret t1 = generate_auth_code hmac shared_secret t2 ∧
    (generate_auth_code hmac shared_secret t1).length = 5 := by
  constructor
  · unfold generate_auth_code
    rw [hw]
  · unfold generate_auth_code
    simpa using render_code_chars_length 5 _

/-- Witness for C8: times 5 and 25 share the window `0`. -/
theorem c8_auth_code_stable_in_window_witness :
    generate_auth_code (fun _ _ => List.range 20) [1, 2, 3] 5
        = generate_auth_code (fun _ _ => List.range 20) [1, 2, 3] 25 ∧
    (generate_auth_code (fun _ _ => List.range 20) [1, 2, 3] 5).length = 5 :=
  c8_auth_code_stable_in_window (fun _ _ => List.range 20) [1, 2, 3] 5 25 (by decide)

/-- C9: along the public lifecycle a session cache exists iff the
authenticator is in the `Authenticated` state — `new` yields an
unauthenticated value with no cache, and a successful `login` (which
consumes the unauthenticated value) yields an authenticated value whose
cache is populated. -/
theorem c9_cache_iff_authenticated (level : AuthLevel) (auth : SteamAuthenticator level)
    (hr : ReachableAuth level auth) :
    auth.cache.isSome = true ↔ level = AuthLevel.Authenticated := by
  induction hr with
  | new user => simp [SteamAuthenticator.new]
  | login a maxRetries handshake api_key b hr h ih =>
    have hsome : b.cache.isSome = true := by
      unfold SteamAuthenticator.login at h
      cases hl : loginWithRetry maxRetries handshake with
      | error e => rw [hl] at h; simp at h
      | ok cache => rw [hl] at h; cases api_key <;> simp at h <;> subst h <;> rfl
    simp [hsome]

/-- Witness for C9: a concrete authenticated value produced by `login`
out of `new`, whose cache is populated. -/
theorem c9_cache_iff_authenticated_witness :
    (({ user := { username := "user", password := "pass" },
        cache := some { steamid := 76561198092541763, oauth_token := "token", api_key := none } } :
          SteamAuthenticator AuthLevel.Authenticated).cache.isSome = true)
      ↔ AuthLevel.Authenticated = AuthLevel.Authenticated :=
  c9_cache_iff_authenticated AuthLevel.Authenticated _
    (ReachableAuth.login (SteamAuthenticator.new { username := "user", password := "pass" }) 3
      (fun _ => Except.ok { steamid := 76561198092541763, oauth_token := "token", api_key := none })
      none _ (ReachableAuth.new _) rfl)

/-- C10: for every 64-bit value whose most significant bit is zero,
converting through `from_steam64` and back through `to_steam64` is the
identity. -/
theorem c10_steam64_roundtrip (x : Nat) (hx : x < 2 ^ 63) :
    (SteamID.from_steam64 x).to_steam64 = x := by
  unfold SteamID.from_steam64 SteamID.to_steam64
  by_cases hp : x % 2 = 1 <;> simp [hp] <;> omega

/-- Witness for C10 at the test value of the repository itself. -/
theorem c10_steam64_roundtrip_witness :
    76561198092541763 < 2 ^ 63 ∧
    (SteamID.from_steam64 76561198092541763).to_steam64 = 76561198092541763 :=
  ⟨by decide, c10_steam64_roundtrip 76561198092541763 (by decide)⟩
